import Mathlib

/-!
Verification development for the gqlgen schema-to-code generator
(src/lib/gqlgen.js). The definitions below are a shallow embedding of the
generator core: the type resolver (getGraphqlType, getListItemGraphqlType,
getNullableGraphqlType), the scalar map, the artifact extraction performed
by generate, and the file-writing orchestration of the CLI action.

JavaScript failure modes are made explicit:
  JsError.typeError p    models a TypeError raised by reading property p of
                         undefined (the run aborts);
  JsError.jsError m      models a thrown `new Error(m)`.

Property accesses that can yield undefined in JavaScript are modelled with
Option: a GraphQL AST node that lacks a property corresponds to none.
-/

/-- A JavaScript runtime failure that aborts the generator run. -/
inductive JsError : Type where
  | typeError (property : String)
  | jsError (message : String)
deriving DecidableEq, Repr

/-- Sequencing of a fallible JavaScript computation: a thrown error
propagates, otherwise the continuation runs on the value. -/
def bindE {α β : Type} (x : Except JsError α) (f : α → Except JsError β) : Except JsError β :=
  match x with
  | .error e => .error e
  | .ok a => f a

/-- Model of Array.prototype.map over a fallible element function: elements
are processed left to right and the first thrown error aborts the map. -/
def mapE {α β : Type} (f : α → Except JsError β) : List α → Except JsError (List β)
  | [] => .ok []
  | a :: t =>
    bindE (f a) fun b =>
      bindE (mapE f t) fun r =>
        .ok (b :: r)

/-- A GraphQL type node as produced by the external parser: exactly one of
NamedType, NonNullType (with nested type) or ListType (with nested type). -/
inductive TypeNode : Type where
  | NamedType (name : String)
  | NonNullType (type : TypeNode)
  | ListType (type : TypeNode)
deriving DecidableEq, Repr

/-- Reading the `.type` property of a type node in JavaScript: NamedType
nodes have no such property, so the access yields undefined (none). -/
def jsInner : TypeNode → Option TypeNode
  | .NamedType _ => none
  | .NonNullType t => some t
  | .ListType t => some t

/-- The descriptor triple produced by the type resolver
(source keys: type, isNullable, isArray). -/
structure TypeDesc : Type where
  type : String
  isNullable : Bool
  isArray : Bool
deriving DecidableEq, Repr

/-- Source function getNullableGraphqlType: wraps a directly specified
named type as a nullable non-array descriptor. It is only ever called on
NamedType nodes, so it is given the name carried by the node. -/
def getNullableGraphqlType (name : String) : TypeDesc :=
  { type := name, isNullable := true, isArray := false }

/-- Source function getListItemGraphqlType. Its JavaScript argument is
`fieldType.type.type` at both call sites, which can be undefined (none):
reading `.kind` of undefined is a TypeError. On a NonNullType argument the
source returns `fieldType.type.name.value`; when the nested node is not a
NamedType it has no `.name`, so reading `.value` of undefined is a
TypeError. A ListType argument throws the nesting-level error. -/
def getListItemGraphqlType : Option TypeNode → Except JsError String
  | none => .error (.typeError "kind")
  | some (.NonNullType (.NamedType n)) => .ok n
  | some (.NonNullType (.NonNullType _)) => .error (.typeError "value")
  | some (.NonNullType (.ListType _)) => .error (.typeError "value")
  | some (.NamedType n) => .ok n
  | some (.ListType _) => .error (.jsError "Unsupported type nesting level")

/-- Source function getGraphqlType, the type resolver. The switch handles
NamedType, NonNullType (with an inner if/else on the nested kind) and
ListType. In the ListType branch the source passes `fieldType.type.type` --
the inner node of the list element, not the element itself -- to
getListItemGraphqlType, which is modelled with jsInner. In the
NonNullType/ListType branch `fieldType.type.type` is the list element
itself. -/
def getGraphqlType : TypeNode → Except JsError TypeDesc
  | .NamedType n => .ok (getNullableGraphqlType n)
  | .NonNullType (.NamedType n) =>
    .ok { type := (getNullableGraphqlType n).type, isNullable := false, isArray := false }
  | .NonNullType (.ListType el) =>
    bindE (getListItemGraphqlType (some el)) fun t =>
      .ok { type := t, isNullable := false, isArray := true }
  | .NonNullType (.NonNullType _) => .error (.jsError "Unsupported type hierarchy")
  | .ListType el =>
    bindE (getListItemGraphqlType (jsInner el)) fun t =>
      .ok { type := t, isNullable := true, isArray := true }

/-- The property names every plain object literal inherits from
Object.prototype in ECMAScript. Indexing scalarMap with one of these finds
the inherited member (a function, or Object.prototype itself through the
__proto__ accessor), not undefined. All of them are valid GraphQL names. -/
def objectPrototypeMembers : List String :=
  ["constructor", "hasOwnProperty", "isPrototypeOf", "propertyIsEnumerable",
   "toLocaleString", "toString", "valueOf",
   "__defineGetter__", "__defineSetter__", "__lookupGetter__", "__lookupSetter__",
   "__proto__"]

/-- A JavaScript value produced by indexing the scalarMap object literal:
one of its own string entries, a member inherited from Object.prototype
(recorded by its property name), or undefined. -/
inductive JsValue : Type where
  | str (s : String)
  | inherited (name : String)
  | jsUndefined
deriving DecidableEq, Repr

/-- JavaScript truthiness for the values above: the empty string and
undefined are falsy; every inherited Object.prototype member (a function
or object) is truthy. -/
def jsTruthy : JsValue → Bool
  | .str s => s != ""
  | .inherited _ => true
  | .jsUndefined => false

/-- Source constant scalarMap, a plain object literal with seven own
entries. Property lookup on an object literal walks the prototype chain:
an own entry wins, a name of an Object.prototype member yields the
inherited member, and any other name yields undefined. -/
def scalarMap (n : String) : JsValue :=
  if n = "ID" then .str "string"
  else if n = "String" then .str "string"
  else if n = "Float" then .str "number"
  else if n = "Int" then .str "number"
  else if n = "Boolean" then .str "boolean"
  else if n = "DateTime" then .str "Date"
  else if n = "Dictionary" then .str "\x7b [key: string]: any \x7d"
  else if n ∈ objectPrototypeMembers then .inherited n
  else .jsUndefined

/-- The expression `scalarMap[graphqlType] || graphqlType` used at every
record construction site: a truthy lookup result wins (an own table entry,
but also any member inherited from Object.prototype), otherwise the base
name itself is the result. -/
def mapScalar (n : String) : JsValue :=
  if jsTruthy (scalarMap n) then scalarMap n else .str n

/-- Source constant graphqlArtifactNames: the reserved root-operation
container names excluded from the object-type artifact category. -/
def graphqlArtifactNames : List String :=
  ["Query", "Mutation", "Subscription", "root"]

/-- An argument of a field on an operation root, or any input value node:
name, optional description node (its string value when present), and type. -/
structure InputValueDef : Type where
  name : String
  description : Option String
  type : TypeNode
deriving DecidableEq, Repr

/-- A field of an object or input type definition, or an operation field on
a root container. Arguments are only read for operation fields. -/
structure FieldDef : Type where
  name : String
  description : Option String
  arguments : List InputValueDef
  type : TypeNode
deriving DecidableEq, Repr

/-- A value of an enum type definition. -/
structure EnumValueDef : Type where
  name : String
  description : Option String
deriving DecidableEq, Repr

/-- A parsed schema definition. kind is the AST kind string; fields is the
`.fields` property (none when the node kind carries no such property, e.g.
enum definitions) and values is the `.values` property (none except on enum
definitions). -/
structure Definition : Type where
  kind : String
  name : String
  description : Option String
  fields : Option (List FieldDef)
  values : Option (List EnumValueDef)
deriving DecidableEq, Repr

/-- The parsed schema document: a list of definitions. -/
structure Schema : Type where
  definitions : List Definition
deriving DecidableEq, Repr

/-- The per-field record built by generate for object and input types and
for operation arguments. -/
structure FieldRecord : Type where
  name : String
  description : String
  graphqlType : String
  isNullable : Bool
  isArray : Bool
  type : JsValue
deriving DecidableEq, Repr

/-- The record handed to the type and input templates. -/
structure TypeRecord : Type where
  name : String
  description : String
  fields : List FieldRecord
deriving DecidableEq, Repr

/-- A rendered enum value. -/
structure EnumValueRecord : Type where
  name : String
  description : String
deriving DecidableEq, Repr

/-- The record handed to the enum template. -/
structure EnumRecord : Type where
  name : String
  description : String
  values : List EnumValueRecord
deriving DecidableEq, Repr

/-- The record handed to the resolver template for one operation field. -/
structure OpRecord : Type where
  name : String
  description : String
  graphqlType : String
  type : JsValue
  isNullable : Bool
  isArray : Bool
  arguments : List FieldRecord
  hasArguments : Bool
deriving DecidableEq, Repr

/-- One generated output unit: relative filename and rendered contents. -/
structure OutputFile : Type where
  filename : String
  contents : String
deriving DecidableEq, Repr

/-- The four compiled handlebars templates loaded by generate, modelled as
opaque total rendering functions (external collaborators). -/
structure Templates : Type where
  typeTemplate : TypeRecord → String
  inputTemplate : TypeRecord → String
  enumTemplate : EnumRecord → String
  resolverTemplate : OpRecord → String

/-- Builds the field record for one object or input type field
(source lines 38 to 49 and the identical lines 67 to 76): the type is
resolved, a missing description becomes the empty string, and the mapped
type is looked up in the scalar map with pass-through. -/
def mkFieldRecord (field : FieldDef) : Except JsError FieldRecord :=
  bindE (getGraphqlType field.type) fun d =>
    .ok { name := field.name
          description := field.description.getD ""
          graphqlType := d.type
          isNullable := d.isNullable
          isArray := d.isArray
          type := mapScalar d.type }

/-- Builds the record handed to the type or input template for one
definition. Reading `.map` on an undefined fields property is a TypeError. -/
def mkTypeRecord (d : Definition) : Except JsError TypeRecord :=
  match d.fields with
  | none => .error (.typeError "map")
  | some fs =>
    bindE (mapE mkFieldRecord fs) fun rs =>
      .ok { name := d.name, description := d.description.getD "", fields := rs }

/-- Builds the record for one enum value (source lines 94 to 97). -/
def mkEnumValueRecord (v : EnumValueDef) : EnumValueRecord :=
  { name := v.name, description := v.description.getD "" }

/-- Builds the record handed to the enum template for one definition. -/
def mkEnumRecord (d : Definition) : Except JsError EnumRecord :=
  match d.values with
  | none => .error (.typeError "map")
  | some vs =>
    .ok { name := d.name
          description := d.description.getD ""
          values := vs.map mkEnumValueRecord }

/-- Builds the record for one operation argument (source lines 113 to 123
and the identical lines 148 to 158). -/
def mkArgRecord (arg : InputValueDef) : Except JsError FieldRecord :=
  bindE (getGraphqlType arg.type) fun d =>
    .ok { name := arg.name
          description := arg.description.getD ""
          graphqlType := d.type
          isNullable := d.isNullable
          isArray := d.isArray
          type := mapScalar d.type }

/-- Builds the record handed to the resolver template for one operation
field (source lines 111 to 134 and the identical lines 146 to 169): the
result type is resolved first, then the arguments. -/
def mkOpRecord (op : FieldDef) : Except JsError OpRecord :=
  bindE (getGraphqlType op.type) fun d =>
    bindE (mapE mkArgRecord op.arguments) fun args =>
      .ok { name := op.name
            description := op.description.getD ""
            graphqlType := d.type
            type := mapScalar d.type
            isNullable := d.isNullable
            isArray := d.isArray
            arguments := args
            hasArguments := args.length > 0 }

/-- The object-type definitions selected at source line 33: kind
ObjectTypeDefinition and name not among the reserved artifact names. -/
def objectTypeDefs (s : Schema) : List Definition :=
  s.definitions.filter fun d =>
    d.kind == "ObjectTypeDefinition" && !(graphqlArtifactNames.contains d.name)

/-- The input-type definitions selected at source line 62. -/
def inputDefs (s : Schema) : List Definition :=
  s.definitions.filter fun d => d.kind == "InputObjectTypeDefinition"

/-- The enum definitions selected at source line 90. -/
def enumDefs (s : Schema) : List Definition :=
  s.definitions.filter fun d => d.kind == "EnumTypeDefinition"

/-- The root-operation lookup of source lines 108 to 110 and 143 to 145:
the first definition whose name equals the root name, by name only. With
no match, `[0]` is undefined and reading `.fields` is a TypeError; when the
selected definition has no fields property, calling `.map` on undefined is
a TypeError. -/
def rootFields (s : Schema) (rootName : String) : Except JsError (List FieldDef) :=
  match s.definitions.filter (fun d => d.name == rootName) with
  | [] => .error (.typeError "fields")
  | d :: _ =>
    match d.fields with
    | none => .error (.typeError "map")
    | some fs => .ok fs

/-- The object-type artifact files (source lines 32 to 58). -/
def typeFiles (tmpl : Templates) (s : Schema) : Except JsError (List OutputFile) :=
  mapE (fun d =>
    bindE (mkTypeRecord d) fun r =>
      .ok { filename := "types/" ++ r.name ++ ".ts", contents := tmpl.typeTemplate r })
    (objectTypeDefs s)

/-- The input-type artifact files (source lines 61 to 86). -/
def inputFiles (tmpl : Templates) (s : Schema) : Except JsError (List OutputFile) :=
  mapE (fun d =>
    bindE (mkTypeRecord d) fun r =>
      .ok { filename := "inputs/" ++ r.name ++ ".ts", contents := tmpl.inputTemplate r })
    (inputDefs s)

/-- The enum artifact files (source lines 89 to 105). -/
def enumFiles (tmpl : Templates) (s : Schema) : Except JsError (List OutputFile) :=
  mapE (fun d =>
    bindE (mkEnumRecord d) fun r =>
      .ok { filename := "types/" ++ r.name ++ ".ts", contents := tmpl.enumTemplate r })
    (enumDefs s)

/-- The query-operation artifact files (source lines 108 to 141). -/
def queryFiles (tmpl : Templates) (s : Schema) : Except JsError (List OutputFile) :=
  bindE (rootFields s "Query") fun ops =>
    mapE (fun op =>
      bindE (mkOpRecord op) fun r =>
        .ok { filename := "resolvers/queries/" ++ r.name ++ ".ts"
              contents := tmpl.resolverTemplate r })
      ops

/-- The mutation-operation artifact files (source lines 143 to 176). -/
def mutationFiles (tmpl : Templates) (s : Schema) : Except JsError (List OutputFile) :=
  bindE (rootFields s "Mutation") fun ops =>
    mapE (fun op =>
      bindE (mkOpRecord op) fun r =>
        .ok { filename := "resolvers/mutations/" ++ r.name ++ ".ts"
              contents := tmpl.resolverTemplate r })
      ops

/-- Source function generate: the five artifact categories are computed in
source order (types, inputs, enums, query operations, mutation operations;
a thrown error at any stage aborts the run) and concatenated in the return
order of lines 178 to 184: inputs, enums, types, queries, mutations. -/
def generate (tmpl : Templates) (s : Schema) : Except JsError (List OutputFile) :=
  bindE (typeFiles tmpl s) fun types =>
    bindE (inputFiles tmpl s) fun inputs =>
      bindE (enumFiles tmpl s) fun enums =>
        bindE (queryFiles tmpl s) fun queryOperations =>
          bindE (mutationFiles tmpl s) fun mutationOperations =>
            .ok (inputs ++ enums ++ types ++ queryOperations ++ mutationOperations)

/-- The output directory, modelled as a map from relative path to file
contents; none means the file does not exist. -/
def FS : Type := String → Option String

/-- fs.writeFileSync: unconditionally overwrites the path. -/
def writeFile (fs : FS) (path contents : String) : FS :=
  fun p => if p = path then some contents else fs p

/-- The write loop of the CLI action (source lines 263 to 272): every
generated file is written in order to the output directory. -/
def writeAll (files : List OutputFile) (fs : FS) : FS :=
  match files with
  | [] => fs
  | f :: t => writeAll t (writeFile fs f.filename f.contents)

/-- The full generate action (source lines 257 to 272): generate runs to
completion first; only if it succeeds are the files written. An error
leaves the output directory untouched. -/
def runGenerate (tmpl : Templates) (s : Schema) (fs : FS) : Except JsError FS :=
  match generate tmpl s with
  | .error e => .error e
  | .ok files => .ok (writeAll files fs)

theorem bindE_ok {α β : Type} {x : Except JsError α} {f : α → Except JsError β} {b : β}
    (h : bindE x f = .ok b) : ∃ a, x = .ok a ∧ f a = .ok b := by
  cases x with
  | error e => exact Except.noConfusion h
  | ok a => exact ⟨a, rfl, h⟩

theorem bindE_error_left {α β : Type} {x : Except JsError α} {f : α → Except JsError β} {e : JsError}
    (h : x = .error e) : bindE x f = .error e := by
  rw [h]; rfl

theorem mapE_ok_length {α β : Type} (f : α → Except JsError β) :
    ∀ {l : List α} {r : List β}, mapE f l = .ok r → r.length = l.length := by
  intro l
  induction l with
  | nil => intro r h; cases h; rfl
  | cons a t ih =>
    intro r h
    unfold mapE at h
    obtain ⟨b, _, h2⟩ := bindE_ok h
    obtain ⟨r2, hr2, h3⟩ := bindE_ok h2
    cases h3
    simp [ih hr2]

theorem mapE_ok_mem {α β : Type} (f : α → Except JsError β) :
    ∀ {l : List α} {r : List β}, mapE f l = .ok r → ∀ b ∈ r, ∃ a ∈ l, f a = .ok b := by
  intro l
  induction l with
  | nil => intro r h b hb; cases h; cases hb
  | cons a t ih =>
    intro r h b hb
    unfold mapE at h
    obtain ⟨b0, hb0, h2⟩ := bindE_ok h
    obtain ⟨r2, hr2, h3⟩ := bindE_ok h2
    cases h3
    rcases List.mem_cons.mp hb with hb | hb
    · exact ⟨a, List.mem_cons_self a t, hb ▸ hb0⟩
    · obtain ⟨a2, ha2, hfa2⟩ := ih hr2 b hb
      exact ⟨a2, List.mem_cons_of_mem a ha2, hfa2⟩

theorem mkTypeRecord_ok_name {d : Definition} {r : TypeRecord}
    (h : mkTypeRecord d = .ok r) : r.name = d.name := by
  unfold mkTypeRecord at h
  cases hf : d.fields with
  | none => rw [hf] at h; exact Except.noConfusion h
  | some fs =>
    rw [hf] at h
    obtain ⟨rs, _, h2⟩ := bindE_ok h
    cases h2
    rfl

theorem mkEnumRecord_ok_name {d : Definition} {r : EnumRecord}
    (h : mkEnumRecord d = .ok r) : r.name = d.name := by
  unfold mkEnumRecord at h
  cases hv : d.values with
  | none => rw [hv] at h; exact Except.noConfusion h
  | some vs => rw [hv] at h; cases h; rfl

theorem mkOpRecord_ok_name {op : FieldDef} {r : OpRecord}
    (h : mkOpRecord op = .ok r) : r.name = op.name := by
  unfold mkOpRecord at h
  obtain ⟨d, _, h2⟩ := bindE_ok h
  obtain ⟨args, _, h3⟩ := bindE_ok h2
  cases h3
  rfl

theorem generate_ok_elim {tmpl : Templates} {s : Schema} {files : List OutputFile}
    (h : generate tmpl s = .ok files) :
    ∃ ty inp en qu mu,
      typeFiles tmpl s = .ok ty ∧ inputFiles tmpl s = .ok inp ∧
      enumFiles tmpl s = .ok en ∧ queryFiles tmpl s = .ok qu ∧
      mutationFiles tmpl s = .ok mu ∧ files = inp ++ en ++ ty ++ qu ++ mu := by
  unfold generate at h
  obtain ⟨ty, hty, h⟩ := bindE_ok h
  obtain ⟨inp, hinp, h⟩ := bindE_ok h
  obtain ⟨en, hen, h⟩ := bindE_ok h
  obtain ⟨qu, hqu, h⟩ := bindE_ok h
  obtain ⟨mu, hmu, h⟩ := bindE_ok h
  cases h
  exact ⟨ty, inp, en, qu, mu, hty, hinp, hen, hqu, hmu, rfl⟩

theorem queryFiles_ok_root {tmpl : Templates} {s : Schema} {l : List OutputFile}
    (h : queryFiles tmpl s = .ok l) : ∃ ops, rootFields s "Query" = .ok ops := by
  unfold queryFiles at h
  obtain ⟨ops, hops, _⟩ := bindE_ok h
  exact ⟨ops, hops⟩

theorem mutationFiles_ok_root {tmpl : Templates} {s : Schema} {l : List OutputFile}
    (h : mutationFiles tmpl s = .ok l) : ∃ ops, rootFields s "Mutation" = .ok ops := by
  unfold mutationFiles at h
  obtain ⟨ops, hops, _⟩ := bindE_ok h
  exact ⟨ops, hops⟩

theorem rootFields_ok_nonempty {s : Schema} {rootName : String} {ops : List FieldDef}
    (h : rootFields s rootName = .ok ops) :
    s.definitions.filter (fun d => d.name == rootName) ≠ [] := by
  intro hemp
  unfold rootFields at h
  rw [hemp] at h
  exact Except.noConfusion h

/-- The contents last written to path p by the file list, if any. -/
def lastWrite (l : List OutputFile) (p : String) : Option String :=
  match l with
  | [] => none
  | f :: t =>
    match lastWrite t p with
    | some c => some c
    | none => if f.filename = p then some f.contents else none

theorem writeAll_apply (l : List OutputFile) (fs : FS) (p : String) :
    writeAll l fs p =
      match lastWrite l p with
      | some c => some c
      | none => fs p := by
  induction l generalizing fs with
  | nil => rfl
  | cons f t ih =>
    show writeAll t (writeFile fs f.filename f.contents) p = _
    rw [ih]
    cases hlt : lastWrite t p with
    | some c => simp only [lastWrite, hlt]
    | none =>
      simp only [lastWrite, hlt, writeFile]
      by_cases hp : f.filename = p
      · simp [hp]
      · simp [hp, Ne.symm hp]

theorem writeAll_idem (l : List OutputFile) (fs : FS) :
    writeAll l (writeAll l fs) = writeAll l fs := by
  funext p
  rw [writeAll_apply l (writeAll l fs) p]
  cases h : lastWrite l p with
  | some c => rw [writeAll_apply l fs p, h]
  | none => rfl

/-- C1: of the four recognized source shapes, Named(n), NonNull(Named(n)),
NonNull(List(Named(n))) and NonNull(List(NonNull(Named(n)))) and
List(NonNull(Named(n))) produce the documented descriptor triples, but
List(Named(n)) does not: because the ListType branch of getGraphqlType
passes the inner node of the list element instead of the element itself,
the resolver crashes with a TypeError (reading kind of undefined) instead
of producing (n, nullable=true, isArray=true). The claim fails on the code
at this input. -/
theorem type_resolver_list_named_crash (n : String) :
    getGraphqlType (.NamedType n) =
      .ok { type := n, isNullable := true, isArray := false } ∧
    getGraphqlType (.NonNullType (.NamedType n)) =
      .ok { type := n, isNullable := false, isArray := false } ∧
    getGraphqlType (.ListType (.NonNullType (.NamedType n))) =
      .ok { type := n, isNullable := true, isArray := true } ∧
    getGraphqlType (.NonNullType (.ListType (.NamedType n))) =
      .ok { type := n, isNullable := false, isArray := true } ∧
    getGraphqlType (.NonNullType (.ListType (.NonNullType (.NamedType n)))) =
      .ok { type := n, isNullable := false, isArray := true } ∧
    getGraphqlType (.ListType (.NamedType n)) = .error (.typeError "kind") :=
  ⟨rfl, rfl, rfl, rfl, rfl, rfl⟩

/-- C2: a doubly non-null node does fail as documented, but a list nested
directly inside a list is silently coerced into a descriptor: for
List(List(Named(n))) and List(List(NonNull(Named(n)))) the resolver
returns (n, nullable=true, isArray=true) with no error, because the
ListType branch inspects the element one level too deep. The claim that no
unsupported nesting is ever silently coerced fails on the code. -/
theorem type_resolver_list_list_coerced (n : String) :
    getGraphqlType (.ListType (.ListType (.NamedType n))) =
      .ok { type := n, isNullable := true, isArray := true } ∧
    getGraphqlType (.ListType (.ListType (.NonNullType (.NamedType n)))) =
      .ok { type := n, isNullable := true, isArray := true } ∧
    getGraphqlType (.NonNullType (.NonNullType (.NamedType n))) =
      .error (.jsError "Unsupported type hierarchy") :=
  ⟨rfl, rfl, rfl⟩

/-- C3: the scalar mapper never throws, the seven fixed base names map to
their documented primitives, and a base name outside both the table and
the Object.prototype member names passes through unchanged. But the
universal pass-through clause of the claim fails on the code: scalarMap is
a plain object literal, so indexing it with a valid GraphQL name that
collides with an Object.prototype member -- toString, constructor,
valueOf, hasOwnProperty, __proto__ and the rest -- finds the inherited
truthy member, so the fallback of `scalarMap[t] || t` never runs and the
mapper returns the inherited member instead of the name unchanged. -/
theorem scalar_map_prototype_leak (n : String)
    (h1 : n ∉ (["ID", "String", "Float", "Int", "Boolean", "DateTime", "Dictionary"] : List String))
    (h2 : n ∉ objectPrototypeMembers) :
    mapScalar "ID" = .str "string" ∧ mapScalar "String" = .str "string" ∧
    mapScalar "Float" = .str "number" ∧ mapScalar "Int" = .str "number" ∧
    mapScalar "Boolean" = .str "boolean" ∧ mapScalar "DateTime" = .str "Date" ∧
    mapScalar "Dictionary" = .str "\x7b [key: string]: any \x7d" ∧
    mapScalar n = .str n ∧
    mapScalar "toString" = .inherited "toString" ∧
    mapScalar "toString" ≠ .str "toString" ∧
    mapScalar "constructor" = .inherited "constructor" ∧
    mapScalar "valueOf" = .inherited "valueOf" ∧
    mapScalar "hasOwnProperty" = .inherited "hasOwnProperty" ∧
    mapScalar "__proto__" = .inherited "__proto__" := by
  simp only [List.mem_cons, List.not_mem_nil, or_false, not_or] at h1
  obtain ⟨g1, g2, g3, g4, g5, g6, g7⟩ := h1
  refine ⟨by decide, by decide, by decide, by decide, by decide, by decide, by decide, ?_,
    by decide, by decide, by decide, by decide, by decide, by decide⟩
  simp [mapScalar, scalarMap, jsTruthy, g1, g2, g3, g4, g5, g6, g7, h2]

/-- Witness for C3 at the base name Widget, which is neither in the table
nor an Object.prototype member name. -/
theorem scalar_map_prototype_leak_witness :
    ("Widget" : String) ∉ (["ID", "String", "Float", "Int", "Boolean", "DateTime", "Dictionary"] : List String) ∧
    ("Widget" : String) ∉ objectPrototypeMembers ∧
    (mapScalar "ID" = .str "string" ∧ mapScalar "String" = .str "string" ∧
     mapScalar "Float" = .str "number" ∧ mapScalar "Int" = .str "number" ∧
     mapScalar "Boolean" = .str "boolean" ∧ mapScalar "DateTime" = .str "Date" ∧
     mapScalar "Dictionary" = .str "\x7b [key: string]: any \x7d" ∧
     mapScalar "Widget" = .str "Widget" ∧
     mapScalar "toString" = .inherited "toString" ∧
     mapScalar "toString" ≠ .str "toString" ∧
     mapScalar "constructor" = .inherited "constructor" ∧
     mapScalar "valueOf" = .inherited "valueOf" ∧
     mapScalar "hasOwnProperty" = .inherited "hasOwnProperty" ∧
     mapScalar "__proto__" = .inherited "__proto__") :=
  ⟨by decide, by decide, scalar_map_prototype_leak "Widget" (by decide) (by decide)⟩

/-- Constant templates used to instantiate witnesses. -/
def tmpl0 : Templates :=
  { typeTemplate := fun _ => "T"
    inputTemplate := fun _ => "I"
    enumTemplate := fun _ => "E"
    resolverTemplate := fun _ => "R" }

/-- An empty output directory. -/
def fs0 : FS := fun _ => none

/-- A plain object type definition. -/
def widgetDef : Definition :=
  { kind := "ObjectTypeDefinition", name := "Widget", description := none
    fields := some [{ name := "id", description := none, arguments := []
                      type := .NonNullType (.NamedType "ID") }]
    values := none }

/-- An enum definition. -/
def colorDef : Definition :=
  { kind := "EnumTypeDefinition", name := "Color", description := none
    fields := none
    values := some [{ name := "red", description := none }] }

/-- An input object definition. -/
def createWidgetInputDef : Definition :=
  { kind := "InputObjectTypeDefinition", name := "CreateWidgetInput", description := none
    fields := some [{ name := "name", description := none, arguments := []
                      type := .NonNullType (.NamedType "String") }]
    values := none }

/-- The query root container with one operation field. -/
def queryRootDef : Definition :=
  { kind := "ObjectTypeDefinition", name := "Query", description := none
    fields := some [{ name := "widgets", description := none, arguments := []
                      type := .NonNullType (.ListType (.NonNullType (.NamedType "Widget"))) }]
    values := none }

/-- The mutation root container with one operation field with one argument. -/
def mutationRootDef : Definition :=
  { kind := "ObjectTypeDefinition", name := "Mutation", description := none
    fields := some [{ name := "createWidget", description := none
                      arguments := [{ name := "input", description := none
                                      type := .NonNullType (.NamedType "String") }]
                      type := .NonNullType (.NamedType "Widget") }]
    values := none }

/-- A small well-formed schema with one artifact in every category. -/
def schema0 : Schema :=
  { definitions := [colorDef, widgetDef, createWidgetInputDef, queryRootDef, mutationRootDef] }

/-- The output of generate on schema0 with the constant templates. -/
def files0 : List OutputFile :=
  [ { filename := "inputs/CreateWidgetInput.ts", contents := "I" }
  , { filename := "types/Color.ts", contents := "E" }
  , { filename := "types/Widget.ts", contents := "T" }
  , { filename := "resolvers/queries/widgets.ts", contents := "R" }
  , { filename := "resolvers/mutations/createWidget.ts", contents := "R" } ]

/-- A schema whose document has no definition named Mutation. -/
def schemaNoMutation : Schema := { definitions := [widgetDef, queryRootDef] }

/-- C4: when the document has no definition named after the query root or
none named after the mutation root, generate aborts with an error (the
failed root lookup is a TypeError reading fields of undefined, the
MissingRootOperation failure of the specification taxonomy) and the whole
run fails before a single file of any category reaches the output
directory. -/
theorem missing_root_fails_before_write (tmpl : Templates) (s : Schema) (fs : FS)
    (h : s.definitions.filter (fun d => d.name == "Query") = [] ∨
         s.definitions.filter (fun d => d.name == "Mutation") = []) :
    ∃ e, generate tmpl s = .error e ∧ runGenerate tmpl s fs = .error e := by
  cases hg : generate tmpl s with
  | error e =>
    refine ⟨e, rfl, ?_⟩
    unfold runGenerate
    rw [hg]
  | ok files =>
    exfalso
    obtain ⟨ty, inp, en, qu, mu, hty, hinp, hen, hqu, hmu, hf⟩ := generate_ok_elim hg
    cases h with
    | inl hq =>
      obtain ⟨ops, hops⟩ := queryFiles_ok_root hqu
      exact rootFields_ok_nonempty hops hq
    | inr hm =>
      obtain ⟨ops, hops⟩ := mutationFiles_ok_root hmu
      exact rootFields_ok_nonempty hops hm

/-- Witness for C4: a schema with a query root but no mutation root. -/
theorem missing_root_fails_before_write_witness :
    (schemaNoMutation.definitions.filter (fun d => d.name == "Query") = [] ∨
     schemaNoMutation.definitions.filter (fun d => d.name == "Mutation") = []) ∧
    ∃ e, generate tmpl0 schemaNoMutation = .error e ∧
      runGenerate tmpl0 schemaNoMutation fs0 = .error e :=
  ⟨Or.inr (by decide),
   missing_root_fails_before_write tmpl0 schemaNoMutation fs0 (Or.inr (by decide))⟩

/-- C5: the object-type artifact category, as selected by generate, never
contains a definition named after one of the four reserved root-operation
container names Query, Mutation, Subscription, root. -/
theorem reserved_names_excluded (s : Schema) (d : Definition)
    (hd : d ∈ objectTypeDefs s) : d.name ∉ graphqlArtifactNames := by
  unfold objectTypeDefs at hd
  have h := (List.mem_filter.mp hd).2
  simp only [Bool.and_eq_true, Bool.not_eq_true'] at h
  intro hmem
  have h2 : graphqlArtifactNames.contains d.name = true := List.elem_eq_true_of_mem hmem
  rw [h.2] at h2
  exact Bool.noConfusion h2

/-- Witness for C5: the Widget definition is in the object-type category
of schema0 and its name is not reserved. -/
theorem reserved_names_excluded_witness :
    widgetDef ∈ objectTypeDefs schema0 ∧ widgetDef.name ∉ graphqlArtifactNames :=
  ⟨by decide, reserved_names_excluded schema0 widgetDef (by decide)⟩

/-- C6: whenever generate succeeds, it produces exactly one artifact file
per input type, enum, non-reserved object type, query root field and
mutation root field, concatenated in the category order inputs, enums,
object types, query operations, mutation operations, so the total count is
N+M+K+P+Q. -/
theorem generate_cardinality_order (tmpl : Templates) (s : Schema) (files : List OutputFile)
    (h : generate tmpl s = .ok files) :
    ∃ inp en ty qu mu qops mops,
      inputFiles tmpl s = .ok inp ∧ enumFiles tmpl s = .ok en ∧
      typeFiles tmpl s = .ok ty ∧ queryFiles tmpl s = .ok qu ∧
      mutationFiles tmpl s = .ok mu ∧
      rootFields s "Query" = .ok qops ∧ rootFields s "Mutation" = .ok mops ∧
      files = inp ++ en ++ ty ++ qu ++ mu ∧
      inp.length = (inputDefs s).length ∧
      en.length = (enumDefs s).length ∧
      ty.length = (objectTypeDefs s).length ∧
      qu.length = qops.length ∧
      mu.length = mops.length ∧
      files.length = (inputDefs s).length + (enumDefs s).length +
        (objectTypeDefs s).length + qops.length + mops.length := by
  obtain ⟨ty, inp, en, qu, mu, hty, hinp, hen, hqu, hmu, hf⟩ := generate_ok_elim h
  have hq := hqu
  unfold queryFiles at hq
  obtain ⟨qops, hqops, hqmap⟩ := bindE_ok hq
  have hm := hmu
  unfold mutationFiles at hm
  obtain ⟨mops, hmops, hmmap⟩ := bindE_ok hm
  have hlenInp : inp.length = (inputDefs s).length := by
    unfold inputFiles at hinp
    exact mapE_ok_length _ hinp
  have hlenEn : en.length = (enumDefs s).length := by
    unfold enumFiles at hen
    exact mapE_ok_length _ hen
  have hlenTy : ty.length = (objectTypeDefs s).length := by
    unfold typeFiles at hty
    exact mapE_ok_length _ hty
  have hlenQu : qu.length = qops.length := mapE_ok_length _ hqmap
  have hlenMu : mu.length = mops.length := mapE_ok_length _ hmmap
  refine ⟨inp, en, ty, qu, mu, qops, mops, hinp, hen, hty, hqu, hmu, hqops, hmops, hf,
    hlenInp, hlenEn, hlenTy, hlenQu, hlenMu, ?_⟩
  subst hf
  simp only [List.length_append]
  omega

/-- Witness for C6 on schema0, which has one artifact in every category. -/
theorem generate_cardinality_order_witness :
    generate tmpl0 schema0 = .ok files0 ∧
    ∃ inp en ty qu mu qops mops,
      inputFiles tmpl0 schema0 = .ok inp ∧ enumFiles tmpl0 schema0 = .ok en ∧
      typeFiles tmpl0 schema0 = .ok ty ∧ queryFiles tmpl0 schema0 = .ok qu ∧
      mutationFiles tmpl0 schema0 = .ok mu ∧
      rootFields schema0 "Query" = .ok qops ∧ rootFields schema0 "Mutation" = .ok mops ∧
      files0 = inp ++ en ++ ty ++ qu ++ mu ∧
      inp.length = (inputDefs schema0).length ∧
      en.length = (enumDefs schema0).length ∧
      ty.length = (objectTypeDefs schema0).length ∧
      qu.length = qops.length ∧
      mu.length = mops.length ∧
      files0.length = (inputDefs schema0).length + (enumDefs schema0).length +
        (objectTypeDefs schema0).length + qops.length + mops.length :=
  ⟨rfl, generate_cardinality_order tmpl0 schema0 files0 rfl⟩

/-- C7: every generated artifact file lives in the fixed directory of its
category with the artifact name as filename: input types under inputs/,
enum and object types under types/, query operations under
resolvers/queries/, mutation operations under resolvers/mutations/, each
with the .ts suffix produced by the template literal. -/
theorem artifact_paths (tmpl : Templates) (s : Schema)
    (inp en ty qu mu : List OutputFile)
    (hinp : inputFiles tmpl s = .ok inp) (hen : enumFiles tmpl s = .ok en)
    (hty : typeFiles tmpl s = .ok ty) (hqu : queryFiles tmpl s = .ok qu)
    (hmu : mutationFiles tmpl s = .ok mu) :
    (∀ f ∈ inp, ∃ d ∈ inputDefs s, f.filename = "inputs/" ++ d.name ++ ".ts") ∧
    (∀ f ∈ en, ∃ d ∈ enumDefs s, f.filename = "types/" ++ d.name ++ ".ts") ∧
    (∀ f ∈ ty, ∃ d ∈ objectTypeDefs s, f.filename = "types/" ++ d.name ++ ".ts") ∧
    (∀ f ∈ qu, ∃ qops op, rootFields s "Query" = .ok qops ∧ op ∈ qops ∧
      f.filename = "resolvers/queries/" ++ op.name ++ ".ts") ∧
    (∀ f ∈ mu, ∃ mops op, rootFields s "Mutation" = .ok mops ∧ op ∈ mops ∧
      f.filename = "resolvers/mutations/" ++ op.name ++ ".ts") := by
  refine ⟨?_, ?_, ?_, ?_, ?_⟩
  · intro f hf
    unfold inputFiles at hinp
    obtain ⟨d, hd, hfd⟩ := mapE_ok_mem _ hinp f hf
    obtain ⟨r, hr, hrf⟩ := bindE_ok hfd
    cases hrf
    exact ⟨d, hd, by rw [mkTypeRecord_ok_name hr]⟩
  · intro f hf
    unfold enumFiles at hen
    obtain ⟨d, hd, hfd⟩ := mapE_ok_mem _ hen f hf
    obtain ⟨r, hr, hrf⟩ := bindE_ok hfd
    cases hrf
    exact ⟨d, hd, by rw [mkEnumRecord_ok_name hr]⟩
  · intro f hf
    unfold typeFiles at hty
    obtain ⟨d, hd, hfd⟩ := mapE_ok_mem _ hty f hf
    obtain ⟨r, hr, hrf⟩ := bindE_ok hfd
    cases hrf
    exact ⟨d, hd, by rw [mkTypeRecord_ok_name hr]⟩
  · intro f hf
    unfold queryFiles at hqu
    obtain ⟨qops, hqops, hqmap⟩ := bindE_ok hqu
    obtain ⟨op, hop, hfop⟩ := mapE_ok_mem _ hqmap f hf
    obtain ⟨r, hr, hrf⟩ := bindE_ok hfop
    cases hrf
    exact ⟨qops, op, hqops, hop, by rw [mkOpRecord_ok_name hr]⟩
  · intro f hf
    unfold mutationFiles at hmu
    obtain ⟨mops, hmops, hmmap⟩ := bindE_ok hmu
    obtain ⟨op, hop, hfop⟩ := mapE_ok_mem _ hmmap f hf
    obtain ⟨r, hr, hrf⟩ := bindE_ok hfop
    cases hrf
    exact ⟨mops, op, hmops, hop, by rw [mkOpRecord_ok_name hr]⟩

/-- Witness for C7 on schema0 with one file in every category. -/
theorem artifact_paths_witness :
    inputFiles tmpl0 schema0 = .ok [{ filename := "inputs/CreateWidgetInput.ts", contents := "I" }] ∧
    enumFiles tmpl0 schema0 = .ok [{ filename := "types/Color.ts", contents := "E" }] ∧
    typeFiles tmpl0 schema0 = .ok [{ filename := "types/Widget.ts", contents := "T" }] ∧
    queryFiles tmpl0 schema0 = .ok [{ filename := "resolvers/queries/widgets.ts", contents := "R" }] ∧
    mutationFiles tmpl0 schema0 = .ok [{ filename := "resolvers/mutations/createWidget.ts", contents := "R" }] ∧
    ((∀ f ∈ [({ filename := "inputs/CreateWidgetInput.ts", contents := "I" } : OutputFile)],
        ∃ d ∈ inputDefs schema0, f.filename = "inputs/" ++ d.name ++ ".ts") ∧
     (∀ f ∈ [({ filename := "types/Color.ts", contents := "E" } : OutputFile)],
        ∃ d ∈ enumDefs schema0, f.filename = "types/" ++ d.name ++ ".ts") ∧
     (∀ f ∈ [({ filename := "types/Widget.ts", contents := "T" } : OutputFile)],
        ∃ d ∈ objectTypeDefs schema0, f.filename = "types/" ++ d.name ++ ".ts") ∧
     (∀ f ∈ [({ filename := "resolvers/queries/widgets.ts", contents := "R" } : OutputFile)],
        ∃ qops op, rootFields schema0 "Query" = .ok qops ∧ op ∈ qops ∧
          f.filename = "resolvers/queries/" ++ op.name ++ ".ts") ∧
     (∀ f ∈ [({ filename := "resolvers/mutations/createWidget.ts", contents := "R" } : OutputFile)],
        ∃ mops op, rootFields schema0 "Mutation" = .ok mops ∧ op ∈ mops ∧
          f.filename = "resolvers/mutations/" ++ op.name ++ ".ts")) :=
  ⟨rfl, rfl, rfl, rfl, rfl,
   artifact_paths tmpl0 schema0 _ _ _ _ _ rfl rfl rfl rfl rfl⟩

/-- C8: generation is deterministic (generate is a pure function of the
parsed schema and the loaded templates, so two runs produce the same file
list with identical paths and contents) and the run is idempotent at the
file level: writing the generated files into a directory that already
holds the result of the same run leaves it byte-identical. -/
theorem generate_deterministic_idempotent (tmpl : Templates) (s : Schema) (fs fsOut : FS)
    (h : runGenerate tmpl s fs = .ok fsOut) :
    generate tmpl s = generate tmpl s ∧ runGenerate tmpl s fsOut = .ok fsOut := by
  refine ⟨rfl, ?_⟩
  unfold runGenerate at h ⊢
  cases hg : generate tmpl s with
  | error e =>
    rw [hg] at h
    exact Except.noConfusion h
  | ok files =>
    rw [hg] at h
    cases h
    show Except.ok (writeAll files (writeAll files fs)) = Except.ok (writeAll files fs)
    rw [writeAll_idem]

/-- Witness for C8: a second run of generate on schema0, into the output
directory produced by the first run, leaves it unchanged. -/
theorem generate_deterministic_idempotent_witness :
    runGenerate tmpl0 schema0 fs0 = .ok (writeAll files0 fs0) ∧
    (generate tmpl0 schema0 = generate tmpl0 schema0 ∧
     runGenerate tmpl0 schema0 (writeAll files0 fs0) = .ok (writeAll files0 fs0)) :=
  ⟨rfl, generate_deterministic_idempotent tmpl0 schema0 fs0 (writeAll files0 fs0) rfl⟩

/-- C9: every record builder turns a missing description node into the
empty string: object and input type definitions, their fields, operation
arguments, enum definitions, enum values and operation fields whose parsed
description is absent all yield records whose description is the empty
string, never an absent value. -/
theorem default_empty_description :
    (∀ (d : Definition) (r : TypeRecord),
        d.description = none → mkTypeRecord d = .ok r → r.description = "") ∧
    (∀ (f : FieldDef) (r : FieldRecord),
        f.description = none → mkFieldRecord f = .ok r → r.description = "") ∧
    (∀ (a : InputValueDef) (r : FieldRecord),
        a.description = none → mkArgRecord a = .ok r → r.description = "") ∧
    (∀ (d : Definition) (r : EnumRecord),
        d.description = none → mkEnumRecord d = .ok r → r.description = "") ∧
    (∀ (v : EnumValueDef), v.description = none → (mkEnumValueRecord v).description = "") ∧
    (∀ (op : FieldDef) (r : OpRecord),
        op.description = none → mkOpRecord op = .ok r → r.description = "") := by
  refine ⟨?_, ?_, ?_, ?_, ?_, ?_⟩
  · intro d r hd h
    unfold mkTypeRecord at h
    cases hfs : d.fields with
    | none =>
      rw [hfs] at h
      exact Except.noConfusion h
    | some fs =>
      rw [hfs] at h
      obtain ⟨rs, _, h2⟩ := bindE_ok h
      cases h2
      simp [hd]
  · intro f r hf h
    unfold mkFieldRecord at h
    obtain ⟨d, _, h2⟩ := bindE_ok h
    cases h2
    simp [hf]
  · intro a r ha h
    unfold mkArgRecord at h
    obtain ⟨d, _, h2⟩ := bindE_ok h
    cases h2
    simp [ha]
  · intro d r hd h
    unfold mkEnumRecord at h
    cases hvs : d.values with
    | none =>
      rw [hvs] at h
      exact Except.noConfusion h
    | some vs =>
      rw [hvs] at h
      cases h
      simp [hd]
  · intro v hv
    simp [mkEnumValueRecord, hv]
  · intro op r hop h
    unfold mkOpRecord at h
    obtain ⟨d, _, h2⟩ := bindE_ok h
    obtain ⟨args, _, h3⟩ := bindE_ok h2
    cases h3
    simp [hop]

/-- The record generate builds for the Widget definition. -/
def widgetRecord0 : TypeRecord :=
  { name := "Widget"
    description := ""
    fields := [{ name := "id", description := "", graphqlType := "ID"
                 isNullable := false, isArray := false, type := .str "string" }] }

/-- Witness for C9: the Widget definition carries no description and its
record has the empty string. -/
theorem default_empty_description_witness :
    widgetDef.description = none ∧
    mkTypeRecord widgetDef = .ok widgetRecord0 ∧
    widgetRecord0.description = "" :=
  ⟨rfl, rfl, default_empty_description.1 widgetDef widgetRecord0 rfl rfl⟩

/-- C10: operation extraction selects the first definition in the document
whose name equals the root container name, without inspecting its kind,
and uses its fields; any later definition with the same name has no
influence on the result. -/
theorem root_selection_first_name_match (s : Schema) (rootName : String)
    (d : Definition) (rest : List Definition) (fs : List FieldDef)
    (h : s.definitions.filter (fun x => x.name == rootName) = d :: rest)
    (hf : d.fields = some fs) :
    rootFields s rootName = .ok fs := by
  unfold rootFields
  rw [h]
  simp [hf]

/-- A definition named Query that is not an object type. -/
def oddQueryDef : Definition :=
  { kind := "InputObjectTypeDefinition", name := "Query", description := none
    fields := some [{ name := "ping", description := none, arguments := []
                      type := .NamedType "String" }]
    values := none }

/-- A later object-type definition also named Query. -/
def laterQueryDef : Definition :=
  { kind := "ObjectTypeDefinition", name := "Query", description := none
    fields := some [{ name := "pong", description := none, arguments := []
                      type := .NamedType "Int" }]
    values := none }

/-- A schema with two definitions named Query, the first not an object
type. -/
def schemaDupQuery : Schema := { definitions := [oddQueryDef, laterQueryDef] }

/-- Witness for C10: the first Query-named definition wins even though it
is an input object definition, and the later object type named Query is
ignored. -/
theorem root_selection_first_name_match_witness :
    schemaDupQuery.definitions.filter (fun x => x.name == "Query") = [oddQueryDef, laterQueryDef] ∧
    oddQueryDef.fields = some [{ name := "ping", description := none, arguments := []
                                 type := .NamedType "String" }] ∧
    rootFields schemaDupQuery "Query" = .ok [{ name := "ping", description := none, arguments := []
                                               type := .NamedType "String" }] :=
  ⟨by decide, rfl,
   root_selection_first_name_match schemaDupQuery "Query" oddQueryDef [laterQueryDef]
     [{ name := "ping", description := none, arguments := [], type := .NamedType "String" }]
     (by decide) rfl⟩
